import Mathlib

/-!
Verification of a minimal MCP (JSON-RPC tool-invocation) dispatcher with a
Feishu chat-bot front end, embedded shallowly from its Python sources:
`simple_mcp_server.py`, `feishu_bot_config.py`, `http_mcp_server.py`,
`mcp_client.py`.

Python values (dicts, lists, strings, ints, bools, None) are modelled by the
inductive `Json`.  Fallible Python operations (`d[k]`, `d.get`, `.strip()`,
`in`, iteration, `str.join`) are modelled by `Except String` computations
whose error component stands for the raised exception's message text; outer
`try/except` blocks become matches on those computations.  Network and LLM
calls are modelled by explicit outcome parameters (`FetchResult`, oracle
functions), since the repository treats them as opaque I/O boundaries.
-/

/-- A model of the Python values flowing through the server: JSON-like
dictionaries, lists, strings, integers, booleans and `None`. -/
inductive Json where
  | null
  | bool (b : Bool)
  | num (n : Int)
  | str (s : String)
  | arr (xs : List Json)
  | obj (kvs : List (String × Json))

mutual

/-- Python `==` on the modelled values. -/
def Json.beq : Json → Json → Bool
  | .null, .null => true
  | .bool a, .bool b => a == b
  | .num a, .num b => a == b
  | .str a, .str b => a == b
  | .arr a, .arr b => Json.beqList a b
  | .obj a, .obj b => Json.beqFields a b
  | _, _ => false

def Json.beqList : List Json → List Json → Bool
  | [], [] => true
  | x :: xs, y :: ys => Json.beq x y && Json.beqList xs ys
  | _, _ => false

def Json.beqFields : List (String × Json) → List (String × Json) → Bool
  | [], [] => true
  | (k1, v1) :: xs, (k2, v2) :: ys => k1 == k2 && Json.beq v1 v2 && Json.beqFields xs ys
  | _, _ => false

end

theorem Json.beq_str_iff (x : Json) (s : String) :
    Json.beq x (Json.str s) = true ↔ x = Json.str s := by
  cases x <;> simp [Json.beq]

theorem Json.beq_num_iff (x : Json) (n : Int) :
    Json.beq x (Json.num n) = true ↔ x = Json.num n := by
  cases x <;> simp [Json.beq]

/-- Python truthiness of a modelled value (`if x:`). -/
def pyTruthy : Json → Bool
  | .null => false
  | .bool b => b
  | .num n => n != 0
  | .str s => !s.isEmpty
  | .arr xs => !xs.isEmpty
  | .obj kvs => !kvs.isEmpty

/-- First-match lookup in a modelled dict (Python dicts have unique keys). -/
def lookupField : List (String × Json) → String → Option Json
  | [], _ => none
  | (k, v) :: rest, key => if k == key then some v else lookupField rest key

/-- Python `str()` of a modelled value, used when exception messages
interpolate values (f-strings).  Container rendering is abbreviated; no
theorem below depends on the container cases. -/
def pyStr : Json → String
  | .null => "None"
  | .bool true => "True"
  | .bool false => "False"
  | .num n => toString n
  | .str s => s
  | .arr _ => "[\x2e\x2e\x2e]"
  | .obj _ => "\x7b\x2e\x2e\x2e\x7d"

/-- Python `d.get(k, dflt)`: raises `AttributeError` when the receiver is not
a dict. -/
def pyDictGet (j : Json) (k : String) (dflt : Json) : Except String Json :=
  match j with
  | Json.obj kvs => Except.ok ((lookupField kvs k).getD dflt)
  | _ => Except.error "AttributeError: get"

/-- Python subscript `j[k]`: `KeyError` on a dict missing the key,
`TypeError` on a non-dict receiver (string keys never index lists). -/
def pyIndex (j : Json) (k : String) : Except String Json :=
  match j with
  | Json.obj kvs =>
      match lookupField kvs k with
      | some v => Except.ok v
      | none => Except.error ("KeyError: " ++ k)
  | _ => Except.error "TypeError: not subscriptable"

/-- Python `.strip()` receiver check: only strings have `strip`. -/
def pyAsStr (j : Json) : Except String String :=
  match j with
  | Json.str s => Except.ok s
  | _ => Except.error "AttributeError: strip"

/-- Python `str.strip()` with no argument: drop whitespace from both ends
(modelled over the character list so that it evaluates in the kernel). -/
def pyStrip (s : String) : String :=
  String.mk (((s.data.dropWhile Char.isWhitespace).reverse.dropWhile Char.isWhitespace).reverse)

/-- Python `str.lower()`: characterwise lowering. -/
def pyLower (s : String) : String :=
  String.mk (s.data.map Char.toLower)

/-- Substring test on the underlying character lists (Python `k in s`). -/
def strContains (k s : String) : Bool :=
  (List.range (s.data.length + 1)).any
    (fun i => (s.data.drop i).take k.data.length == k.data)

/-- Python `k in j` for a string key: key membership on dicts, element
membership on lists, substring test on strings, `TypeError` otherwise. -/
def pyContains (k : String) (j : Json) : Except String Bool :=
  match j with
  | Json.obj kvs => Except.ok (lookupField kvs k).isSome
  | Json.arr xs => Except.ok (xs.any (fun x => Json.beq x (Json.str k)))
  | Json.str s => Except.ok (strContains k s)
  | _ => Except.error "TypeError: argument of type is not iterable"

/-- Python iteration `for item in j`: lists yield elements, dicts yield keys,
strings yield one-character strings, other values raise `TypeError`. -/
def pyIter (j : Json) : Except String (List Json) :=
  match j with
  | Json.arr xs => Except.ok xs
  | Json.obj kvs => Except.ok (kvs.map (fun kv => Json.str kv.1))
  | Json.str s => Except.ok (s.data.map (fun c => Json.str (String.singleton c)))
  | _ => Except.error "TypeError: not iterable"

/-- Python integer coercion in arithmetic (`x - 60`): ints and bools work,
anything else raises `TypeError`. -/
def pyToInt (j : Json) : Except String Int :=
  match j with
  | Json.num n => Except.ok n
  | Json.bool b => Except.ok (if b then 1 else 0)
  | _ => Except.error "TypeError: unsupported operand type"

/-- Does a modelled dict response carry the given top-level key? -/
def hasKey (j : Json) (k : String) : Bool :=
  match j with
  | Json.obj kvs => (lookupField kvs k).isSome
  | _ => false

/-! ## `simple_mcp_server.py` — SimpleMCPServer -/

/-- `SimpleMCPServer.handle_initialize`: the fixed capability descriptor. -/
def initResult : Json :=
  Json.obj [("protocolVersion", Json.str "2024-11-05"),
            ("capabilities", Json.obj [("tools", Json.obj [])]),
            ("serverInfo", Json.obj [("name", Json.str "simple-mcp-server"),
                                     ("version", Json.str "1.0.0")])]

/-- `SimpleMCPServer.handle_tools_list`: the static one-tool registry of the
stdio server (`say_hi` only). -/
def simpleToolsListResult : Json :=
  Json.obj [("tools", Json.arr [
    Json.obj [("name", Json.str "say_hi"),
              ("description", Json.str "返回一个简单的问候语"),
              ("inputSchema", Json.obj [("type", Json.str "object"),
                                        ("properties", Json.obj []),
                                        ("required", Json.arr [])])]])]

/-- The `say_hi` tool result: `content = [{type: "text", text: "hi"}]`. -/
def sayHiResult : Json :=
  Json.obj [("content", Json.arr [
    Json.obj [("type", Json.str "text"), ("text", Json.str "hi")]])]

/-- `SimpleMCPServer.handle_tools_call`: dispatch on `params.get("name")`;
unknown names raise `Exception("未知工具: <name>")`. -/
def handle_tools_call (params : Json) : Except String Json := do
  let tool_name ← pyDictGet params "name" Json.null
  let _arguments ← pyDictGet params "arguments" (Json.obj [])
  if Json.beq tool_name (Json.str "say_hi") then
    pure sayHiResult
  else
    Except.error ("未知工具: " ++ pyStr tool_name)

/-- Success envelope of `SimpleMCPServer.handle_request`. -/
def okEnvelope (id result : Json) : Json :=
  Json.obj [("jsonrpc", Json.str "2.0"), ("id", id), ("result", result)]

/-- Error envelope of `SimpleMCPServer.handle_request` (code `-32603`). -/
def errEnvelope (id : Json) (msg : String) : Json :=
  Json.obj [("jsonrpc", Json.str "2.0"), ("id", id),
            ("error", Json.obj [("code", Json.num (-32603)),
                                ("message", Json.str msg)])]

/-- Monad-bind of `Except` applied to a success, as a rewrite rule. -/
theorem exceptOkBind {ε α β : Type} (a : α) (f : α → Except ε β) :
    (Except.ok a : Except ε α) >>= f = f a := rfl

/-- Monad-bind of `Except` applied to a failure, as a rewrite rule. -/
theorem exceptErrorBind {ε α β : Type} (e : ε) (f : α → Except ε β) :
    (Except.error e : Except ε α) >>= f = Except.error e := rfl

/-- `pure` of the `Except` monad, as a rewrite rule. -/
theorem exceptPure {ε α : Type} (a : α) : (pure a : Except ε α) = Except.ok a := rfl

/-- The method chain inside the `try` block of
`SimpleMCPServer.handle_request`: the three known methods, or the raised
`Exception("未知方法: <method>")`. -/
def dispatchMethod (method params : Json) : Except String Json :=
  if Json.beq method (Json.str "initialize") then
    pure initResult
  else if Json.beq method (Json.str "tools/list") then
    pure simpleToolsListResult
  else if Json.beq method (Json.str "tools/call") then
    handle_tools_call params
  else
    Except.error ("未知方法: " ++ pyStr method)

/-- `SimpleMCPServer.handle_request`.  The three `request.get` lines sit
outside the `try` block, so they can still raise on a non-dict request; the
dispatch itself is wrapped and always yields an envelope. -/
def handle_request (request : Json) : Except String Json := do
  let method ← pyDictGet request "method" Json.null
  let params ← pyDictGet request "params" (Json.obj [])
  let request_id ← pyDictGet request "id" Json.null
  match dispatchMethod method params with
  | Except.ok result => pure (okEnvelope request_id result)
  | Except.error e => pure (errEnvelope request_id e)

/-- On a dict request the three `.get` reads cannot raise, so
`handle_request` reduces to a pure dispatch over the looked-up fields. -/
theorem handle_request_obj (kvs : List (String × Json)) :
    handle_request (Json.obj kvs) =
      Except.ok
        (match dispatchMethod ((lookupField kvs "method").getD Json.null)
               ((lookupField kvs "params").getD (Json.obj [])) with
         | Except.ok result => okEnvelope ((lookupField kvs "id").getD Json.null) result
         | Except.error e => errEnvelope ((lookupField kvs "id").getD Json.null) e) := by
  cases h : dispatchMethod ((lookupField kvs "method").getD Json.null)
      ((lookupField kvs "params").getD (Json.obj [])) <;>
    simp [handle_request, pyDictGet, h, exceptOkBind, exceptPure]

example :
    handle_request (Json.obj [("method", Json.str "tools/call"), ("id", Json.num 5),
      ("params", Json.obj [("name", Json.str "say_hi")])]) =
    Except.ok (okEnvelope (Json.num 5) sayHiResult) := rfl

example :
    handle_request (Json.obj [("method", Json.str "nope"), ("id", Json.num 5)]) =
    Except.ok (errEnvelope (Json.num 5) "未知方法: nope") := rfl

example :
    handle_request (Json.obj [("method", Json.str "tools/call")]) =
    Except.ok (errEnvelope Json.null "未知工具: None") := rfl

/-! ## `feishu_bot_config.py` / `http_mcp_server.py` — token cache -/

/-- The bot's mutable credential cache: `self._access_token` and
`self._token_expire_time` (instants modelled as integer seconds). -/
structure TokenState where
  access_token : Option Json
  token_expire_time : Option Int

/-- Outcome of one network exchange as seen after `resp.json()`: either some
exception was raised on the way (connection error, `raise_for_status`, body
decode), or a decoded body. -/
inductive FetchResult where
  | exn (msg : String)
  | ok (j : Json)

/-- The guard `self._access_token and self._token_expire_time and
now < self._token_expire_time` of `get_access_token`. -/
def cacheValid (st : TokenState) (now : Int) : Bool :=
  match st.access_token, st.token_expire_time with
  | some tok, some e => pyTruthy tok && decide (now < e)
  | _, _ => false

/-- `FeishuBot.get_access_token` (identical in both revisions): returns the
value handed back to the caller, the cache state after the call, and whether
a network refresh was attempted.  Mutations performed before an exception
persist, as in Python. -/
def get_access_token (st : TokenState) (now : Int) (fr : FetchResult) :
    Json × TokenState × Bool :=
  if cacheValid st now then (st.access_token.getD Json.null, st, false)
  else
    match fr with
    | FetchResult.exn _ => (Json.str "", st, true)
    | FetchResult.ok j =>
      match pyDictGet j "code" Json.null with
      | Except.error _ => (Json.str "", st, true)
      | Except.ok code =>
        if Json.beq code (Json.num 0) then
          match pyIndex j "app_access_token" with
          | Except.error _ => (Json.str "", st, true)
          | Except.ok tok =>
            let st1 : TokenState := { st with access_token := some tok }
            match pyDictGet j "expire" (Json.num 7200) with
            | Except.error _ => (Json.str "", st1, true)
            | Except.ok expJ =>
              match pyToInt expJ with
              | Except.error _ => (Json.str "", st1, true)
              | Except.ok expire_seconds =>
                let st2 : TokenState :=
                  { st1 with token_expire_time := some (now + (expire_seconds - 60)) }
                (tok, st2, true)
        else (Json.str "", st, true)

/-- `FeishuBot.send_message` (`feishu_bot_config.py` revision).  Returns the
result value, the token-cache state after the call, and the body actually
posted to the send endpoint (`none` when no outbound send was performed).
`sendFr` is the outcome of that send exchange when it happens. -/
def send_message (st : TokenState) (now : Int) (fr sendFr : FetchResult)
    (chat_id : String) (content : Json) (msg_type : String) :
    Json × TokenState × Option Json :=
  let r := get_access_token st now fr
  let token := r.1
  let st1 := r.2.1
  if !pyTruthy token then
    (Json.obj [("error", Json.str "无法获取access_token")], st1, none)
  else
    let body_content := if msg_type == "text" then Json.obj [("text", content)] else content
    let body := Json.obj [("chat_id", Json.str chat_id),
                          ("msg_type", Json.str msg_type),
                          ("content", body_content)]
    match sendFr with
    | FetchResult.exn e => (Json.obj [("error", Json.str e)], st1, some body)
    | FetchResult.ok j =>
      match pyDictGet j "code" Json.null with
      | Except.error e => (Json.obj [("error", Json.str e)], st1, some body)
      | Except.ok _ => (j, st1, some body)

example :
    get_access_token ⟨some (Json.str "tok"), some 100⟩ 50 (FetchResult.exn "boom") =
    (Json.str "tok", ⟨some (Json.str "tok"), some 100⟩, false) := rfl

example :
    get_access_token ⟨none, none⟩ 50
      (FetchResult.ok (Json.obj [("code", Json.num 0),
        ("app_access_token", Json.str "t2"), ("expire", Json.num 7200)])) =
    (Json.str "t2", ⟨some (Json.str "t2"), some 7190⟩, true) := rfl

example :
    get_access_token ⟨none, none⟩ 50 (FetchResult.ok (Json.obj [("code", Json.num 99)])) =
    (Json.str "", ⟨none, none⟩, true) := rfl

example :
    send_message ⟨none, none⟩ 50 (FetchResult.exn "down") (FetchResult.exn "x")
      "oc_1" (Json.str "hello") "text" =
    (Json.obj [("error", Json.str "无法获取access_token")], ⟨none, none⟩, none) := rfl

/-! ## `call_mcp_tool` — both revisions -/

/-- The list comprehension
`[item.get("text", "") for item in content_list if item.get("type") == "text"]`:
per item, evaluate the filter, then (when it passes) the value, in order;
any `AttributeError` from a non-dict item propagates. -/
def extractTexts : List Json → Except String (List Json)
  | [] => Except.ok []
  | item :: rest => do
    let t ← pyDictGet item "type" Json.null
    if Json.beq t (Json.str "text") then do
      let tx ← pyDictGet item "text" (Json.str "")
      let tl ← extractTexts rest
      pure (tx :: tl)
    else
      extractTexts rest

/-- Python `sep.join(items)`: every element must be a string, otherwise
`TypeError`. -/
def pyJoin (sep : String) : List Json → Except String (List String)
  | [] => Except.ok []
  | Json.str s :: rest => do
    let tl ← pyJoin sep rest
    pure (s :: tl)
  | _ :: _ => Except.error "TypeError: sequence item expected str instance"

/-- Body of the `try` block of `FeishuBot.call_mcp_tool` shared by both
revisions, parameterised by the join separator and the no-result reply. -/
def call_mcp_tool_core (sep noResult : String) (j : Json) : Except String String := do
  let hasResult ← pyContains "result" j
  if hasResult then do
    let result ← pyIndex j "result"
    let hasContent ← pyContains "content" result
    if hasContent then do
      let content_list ← pyIndex result "content"
      let items ← pyIter content_list
      let texts ← extractTexts items
      let strs ← pyJoin sep texts
      pure (String.intercalate sep strs)
    else pure noResult
  else pure noResult

/-- `FeishuBot.call_mcp_tool`, `feishu_bot_config.py` revision: joins the
text items with `"\n"`; the `else` branch replies `"调用失败"`; any raised
exception becomes `"调用 MCP Server 工具失败: <e>"`.  `fr` is the outcome of
the POST to the MCP server. -/
def call_mcp_tool_cfg (fr : FetchResult) : String :=
  match fr with
  | FetchResult.exn e => "调用 MCP Server 工具失败: " ++ e
  | FetchResult.ok j =>
    match call_mcp_tool_core "\n" "调用失败" j with
    | Except.ok s => s
    | Except.error e => "调用 MCP Server 工具失败: " ++ e

/-- `FeishuBot.call_mcp_tool`, `http_mcp_server.py` revision: joins the text
items with `""`; the no-result branch replies `"无结果返回"`. -/
def call_mcp_tool_http (fr : FetchResult) : String :=
  match fr with
  | FetchResult.exn e => "调用 MCP Server 工具失败: " ++ e
  | FetchResult.ok j =>
    match call_mcp_tool_core "" "无结果返回" j with
    | Except.ok s => s
    | Except.error e => "调用 MCP Server 工具失败: " ++ e

/-- A `tools/call` response whose `result.content` holds the given text
items. -/
def mkContentResponse (texts : List String) : Json :=
  Json.obj [("result", Json.obj [("content", Json.arr (texts.map (fun s =>
    Json.obj [("type", Json.str "text"), ("text", Json.str s)])))])]

example : call_mcp_tool_cfg (FetchResult.ok (mkContentResponse ["a", "b"])) = "a\nb" := rfl
example : call_mcp_tool_http (FetchResult.ok (mkContentResponse ["a", "b"])) = "ab" := rfl
example : call_mcp_tool_cfg (FetchResult.ok (Json.obj [("x", Json.null)])) = "调用失败" := rfl
example : call_mcp_tool_http (FetchResult.ok (Json.obj [])) = "无结果返回" := rfl

/-! ## `get_mcp_json_from_gemini` (`feishu_bot_config.py` revision) -/

/-- `FeishuBot.get_mcp_json_from_gemini`: the completion call either raises
(`completion = .error`) or yields the raw reply text; the reply is stripped
and parsed with `json.loads` (`parse`, `none` standing for a parse failure);
every failure is caught and collapsed to `None`. -/
def get_mcp_json_from_gemini (completion : Except String String)
    (parse : String → Option Json) : Option Json :=
  match completion with
  | Except.error _ => none
  | Except.ok reply => parse (pyStrip reply)

example : get_mcp_json_from_gemini (Except.error "rate limit") (fun _ => none) = none := rfl
example :
    get_mcp_json_from_gemini (Except.ok " 1 ")
      (fun s => if s == "1" then some (Json.num 1) else none) = some (Json.num 1) := rfl

/-! ## `FeishuBot.handle_message` (identical in both bot revisions) -/

/-- The I/O boundary of `handle_message`: `json.loads` on the content string
(`parse`, `none` = parse failure), the textual result of `call_mcp_tool`
(which catches all of its own exceptions, hence a total function), and the
resolver result of `get_mcp_json_from_gemini` (which collapses its failures
to `None`, hence an `Option`). -/
structure MsgWorld where
  parse : String → Option Json
  toolReply : Json → Json → String
  resolver : String → Option Json

/-- The static `/help` reply of `handle_message`. -/
def helpText : String :=
  "可用命令：\n/hi - 打招呼\n/time - 获取当前时间\n/help - 显示帮助信息"

/-- The fallback echo reply of `handle_message`. -/
def fallbackReply (text : String) : String :=
  "收到消息: " ++ text ++ "\n使用 /help 查看可用命令"

/-- Tag an exception with whether the resolver had already been consulted
when it was raised (used only to report a faithful trace). -/
def liftE {α : Type} (resolverCalled : Bool) :
    Except String α → Except (String × Bool) α
  | Except.ok a => Except.ok a
  | Except.error e => Except.error (e, resolverCalled)

/-- The routing chain of `FeishuBot.handle_message` after content
normalization: literal command aliases first (in source order), then the
intent-resolution branch (`if mcp_json and mcp_json.get("method") ==
"tools/call"`, then `mcp_json["params"]["name"]`). -/
def routeText (w : MsgWorld) (text : String) :
    Except (String × Bool) (String × List (Json × Json) × Bool) :=
  if text == "/hi" || pyLower text == "hi" then
    pure (w.toolReply (Json.str "say_hi") Json.null, [(Json.str "say_hi", Json.null)], false)
  else if text == "/time" || text == "时间" then
    pure (w.toolReply (Json.str "get_time") Json.null, [(Json.str "get_time", Json.null)], false)
  else if text == "/help" || text == "帮助" then
    pure (helpText, [], false)
  else
    match w.resolver text with
    | none => pure (fallbackReply text, [], true)
    | some mj =>
      if pyTruthy mj then do
        let m ← liftE true (pyDictGet mj "method" Json.null)
        if Json.beq m (Json.str "tools/call") then do
          let params ← liftE true (pyIndex mj "params")
          let name ← liftE true (pyIndex params "name")
          let args ← liftE true (pyDictGet params "arguments" (Json.obj []))
          pure (w.toolReply name args, [(name, args)], true)
        else pure (fallbackReply text, [], true)
      else pure (fallbackReply text, [], true)

/-- Body of the `try` block of `FeishuBot.handle_message`: content
normalization followed by `routeText`.  Returns the reply text, the list of
`call_mcp_tool` invocations `(tool_name, arguments)` in order (`Json.null`
models Python's defaulted `arguments=None`), and whether
`get_mcp_json_from_gemini` was consulted. -/
def handle_message_core (w : MsgWorld) (event : Json) :
    Except (String × Bool) (String × List (Json × Json) × Bool) := do
  let message ← liftE false (pyDictGet event "message" (Json.obj []))
  let content0 ← liftE false (pyDictGet message "content" (Json.str ""))
  let content :=
    match content0 with
    | Json.str s =>
      match w.parse s with
      | some j => j
      | none => Json.obj [("text", Json.str s)]
    | c => c
  let textJ ← liftE false (pyDictGet content "text" (Json.str ""))
  let textS ← liftE false (pyAsStr textJ)
  routeText w (pyStrip textS)

/-- `FeishuBot.handle_message`: the whole body sits in one `try`; any raised
exception becomes the reply `"处理消息时出错: <e>"`. -/
def handle_message (w : MsgWorld) (event : Json) :
    String × List (Json × Json) × Bool :=
  match handle_message_core w event with
  | Except.ok r => r
  | Except.error (e, rc) => ("处理消息时出错: " ++ e, [], rc)

/-- Event whose `message.content` is the given value. -/
def mkEvent (content : Json) : Json :=
  Json.obj [("message", Json.obj [("content", content)])]

example :
    handle_message ⟨fun _ => none, fun n _ => if Json.beq n (Json.str "say_hi") then "hi" else "?",
      fun _ => none⟩ (mkEvent (Json.str "/hi")) =
    ("hi", [(Json.str "say_hi", Json.null)], false) := rfl

example :
    handle_message ⟨fun _ => none, fun _ _ => "?", fun _ => none⟩
      (mkEvent (Json.str " 帮助 ")) = (helpText, [], false) := rfl

example :
    handle_message ⟨fun _ => none, fun _ _ => "?", fun _ => none⟩
      (mkEvent (Json.str "xyz")) = (fallbackReply "xyz", [], true) := rfl

example :
    handle_message ⟨fun _ => none, fun _ _ => "?",
      fun _ => some (Json.obj [("method", Json.str "tools/call"), ("params", Json.obj [])])⟩
      (mkEvent (Json.str "xyz")) = ("处理消息时出错: KeyError: name", [], true) := rfl

/-! ## Spec-modelled HTTP MCP server registry (`say_hi` + `get_time`)

The HTTP MCP server that registers the two built-in tools is not among the
source files (only its stdio predecessor `simple_mcp_server.py`, which
registers `say_hi` alone, and its caller `FeishuBot.handle_message`, which
invokes `get_time` over HTTP, are).  The registry below is modelled from the
spec. -/

/-- A clock reading, as broken down by `strftime`-style formatting. -/
structure LocalTime where
  year : Nat
  month : Nat
  day : Nat
  hour : Nat
  minute : Nat
  second : Nat

/-- Zero-padded two-digit field (`%m`, `%d`, `%H`, `%M`, `%S`). -/
def pad2 (n : Nat) : String :=
  String.mk [Nat.digitChar (n / 10 % 10), Nat.digitChar (n % 10)]

/-- Zero-padded four-digit year field (`%Y`). -/
def pad4 (n : Nat) : String :=
  String.mk [Nat.digitChar (n / 1000 % 10), Nat.digitChar (n / 100 % 10),
             Nat.digitChar (n / 10 % 10), Nat.digitChar (n % 10)]

/-- Modelled from the spec: the `get_time` timestamp rendering
`YYYY-MM-DD HH:MM:SS`. -/
def formatTime (t : LocalTime) : String :=
  pad4 t.year ++ "-" ++ pad2 t.month ++ "-" ++ pad2 t.day ++ " " ++
  pad2 t.hour ++ ":" ++ pad2 t.minute ++ ":" ++ pad2 t.second

/-- A registered tool: name, description, input schema, and handler from
(arguments, clock) to the content list of its ToolResult. -/
structure SpecTool where
  name : String
  description : String
  inputSchema : Json
  handler : Json → LocalTime → Json

/-- One-text-item ToolResult content. -/
def textContent (s : String) : Json :=
  Json.obj [("content", Json.arr [
    Json.obj [("type", Json.str "text"), ("text", Json.str s)]])]

/-- The empty-object input schema shared by both built-in tools. -/
def emptySchema : Json :=
  Json.obj [("type", Json.str "object"), ("properties", Json.obj []),
            ("required", Json.arr [])]

/-- Modelled from the spec: the built-in `say_hi` tool (ignores arguments,
returns the literal text "hi"). -/
def sayHiTool : SpecTool :=
  ⟨"say_hi", "返回一个简单的问候语", emptySchema, fun _ _ => textContent "hi"⟩

/-- Modelled from the spec: the built-in `get_time` tool (ignores arguments,
returns the current local timestamp formatted `YYYY-MM-DD HH:MM:SS`). -/
def getTimeTool : SpecTool :=
  ⟨"get_time", "返回当前时间", emptySchema, fun _ now => textContent (formatTime now)⟩

/-- Modelled from the spec: the HTTP server's fixed tool registry. -/
def specToolRegistry : List SpecTool := [sayHiTool, getTimeTool]

/-- The `tools/list` entry of one registered tool. -/
def toolSpecJson (t : SpecTool) : Json :=
  Json.obj [("name", Json.str t.name), ("description", Json.str t.description),
            ("inputSchema", t.inputSchema)]

/-- Modelled from the spec: `tools/list` returns the full registry contents
verbatim. -/
def spec_tools_list : Json :=
  Json.obj [("tools", Json.arr (specToolRegistry.map toolSpecJson))]

/-- Modelled from the spec: `tools/call` against the two-tool registry;
lookup is case-sensitive exact match, unknown names are a dispatch-level
error. -/
def spec_tools_call (name : String) (args : Json) (now : LocalTime) :
    Except String Json :=
  match specToolRegistry.find? (fun t => t.name == name) with
  | some t => Except.ok (t.handler args now)
  | none => Except.error ("未知工具: " ++ name)

example : spec_tools_call "say_hi" (Json.obj []) ⟨2026, 10, 12, 1, 2, 3⟩ =
    Except.ok (textContent "hi") := rfl
example : spec_tools_call "get_time" Json.null ⟨2026, 10, 12, 1, 2, 3⟩ =
    Except.ok (textContent "2026-10-12 01:02:03") := rfl
example : formatTime ⟨2026, 10, 12, 1, 2, 3⟩ = "2026-10-12 01:02:03" := rfl
example : (formatTime ⟨2026, 10, 12, 1, 2, 3⟩).length = 19 := rfl

/-! ## Claims about `SimpleMCPServer.handle_request` -/

/-- C1: a `tools/call` request naming the registered tool `say_hi` gets a
response with `result` populated (`content = [{type: "text", text: "hi"}]`),
no `error` field, and the request's own `id`. -/
theorem claim_C1 (kvs pkvs : List (String × Json))
    (hm : lookupField kvs "method" = some (Json.str "tools/call"))
    (hp : lookupField kvs "params" = some (Json.obj pkvs))
    (hn : lookupField pkvs "name" = some (Json.str "say_hi")) :
    handle_request (Json.obj kvs) =
      Except.ok (okEnvelope ((lookupField kvs "id").getD Json.null) sayHiResult) ∧
    pyIndex (okEnvelope ((lookupField kvs "id").getD Json.null) sayHiResult) "result" =
      Except.ok sayHiResult ∧
    pyIndex (okEnvelope ((lookupField kvs "id").getD Json.null) sayHiResult) "id" =
      Except.ok ((lookupField kvs "id").getD Json.null) ∧
    hasKey (okEnvelope ((lookupField kvs "id").getD Json.null) sayHiResult) "error" = false := by
  refine ⟨?_, rfl, rfl, rfl⟩
  have hd : dispatchMethod (Json.str "tools/call") (Json.obj pkvs) =
      handle_tools_call (Json.obj pkvs) := rfl
  have hc : handle_tools_call (Json.obj pkvs) = Except.ok sayHiResult := by
    simp [handle_tools_call, pyDictGet, hn, exceptOkBind, exceptPure, Json.beq]
  rw [handle_request_obj, hm, hp]
  simp [hd, hc]

/-- Concrete instance of `claim_C1`: a full `tools/call` request for
`say_hi` with id 5. -/
theorem claim_C1_witness :
    handle_request (Json.obj [("method", Json.str "tools/call"), ("id", Json.num 5),
        ("params", Json.obj [("name", Json.str "say_hi")])]) =
      Except.ok (okEnvelope (Json.num 5) sayHiResult) ∧
    pyIndex (okEnvelope (Json.num 5) sayHiResult) "result" = Except.ok sayHiResult ∧
    pyIndex (okEnvelope (Json.num 5) sayHiResult) "id" = Except.ok (Json.num 5) ∧
    hasKey (okEnvelope (Json.num 5) sayHiResult) "error" = false :=
  claim_C1 [("method", Json.str "tools/call"), ("id", Json.num 5),
    ("params", Json.obj [("name", Json.str "say_hi")])]
    [("name", Json.str "say_hi")] rfl rfl rfl

/-- C2: unknown methods and unknown tools get a response whose `error` is
populated with the integer code `-32603` and a message distinguishing
unknown method (`未知方法: …`) from unknown tool (`未知工具: …`), whose
`result` is absent, and whose `id` is the request's. -/
theorem claim_C2 (kvs : List (String × Json)) :
    (∀ m, lookupField kvs "method" = some m →
       Json.beq m (Json.str "initialize") = false →
       Json.beq m (Json.str "tools/list") = false →
       Json.beq m (Json.str "tools/call") = false →
       handle_request (Json.obj kvs) =
         Except.ok (errEnvelope ((lookupField kvs "id").getD Json.null)
           ("未知方法: " ++ pyStr m))) ∧
    (∀ pkvs, lookupField kvs "method" = some (Json.str "tools/call") →
       lookupField kvs "params" = some (Json.obj pkvs) →
       Json.beq ((lookupField pkvs "name").getD Json.null) (Json.str "say_hi") = false →
       handle_request (Json.obj kvs) =
         Except.ok (errEnvelope ((lookupField kvs "id").getD Json.null)
           ("未知工具: " ++ pyStr ((lookupField pkvs "name").getD Json.null)))) ∧
    (∀ id msg,
       pyIndex (errEnvelope id msg) "error" =
         Except.ok (Json.obj [("code", Json.num (-32603)), ("message", Json.str msg)]) ∧
       hasKey (errEnvelope id msg) "result" = false ∧
       pyIndex (errEnvelope id msg) "id" = Except.ok id) := by
  refine ⟨?_, ?_, fun id msg => ⟨rfl, rfl, rfl⟩⟩
  · intro m hm h1 h2 h3
    have hd : dispatchMethod m ((lookupField kvs "params").getD (Json.obj [])) =
        Except.error ("未知方法: " ++ pyStr m) := by
      simp [dispatchMethod, h1, h2, h3]
    rw [handle_request_obj, hm]
    simp [hd]
  · intro pkvs hm hp hn
    have hc : handle_tools_call (Json.obj pkvs) =
        Except.error ("未知工具: " ++ pyStr ((lookupField pkvs "name").getD Json.null)) := by
      simp [handle_tools_call, pyDictGet, exceptOkBind, exceptPure, hn]
    have hd : dispatchMethod (Json.str "tools/call") (Json.obj pkvs) =
        handle_tools_call (Json.obj pkvs) := rfl
    rw [handle_request_obj, hm, hp]
    simp [hd, hc]

/-- Concrete instances of `claim_C2`: an unknown method and an unknown
tool. -/
theorem claim_C2_witness :
    handle_request (Json.obj [("method", Json.str "frobnicate"), ("id", Json.num 1)]) =
      Except.ok (errEnvelope (Json.num 1) "未知方法: frobnicate") ∧
    handle_request (Json.obj [("method", Json.str "tools/call"), ("id", Json.num 2),
        ("params", Json.obj [("name", Json.str "get_time")])]) =
      Except.ok (errEnvelope (Json.num 2) "未知工具: get_time") ∧
    hasKey (errEnvelope (Json.num 1) "未知方法: frobnicate") "result" = false :=
  ⟨(claim_C2 [("method", Json.str "frobnicate"), ("id", Json.num 1)]).1
      (Json.str "frobnicate") rfl rfl rfl rfl,
   (claim_C2 [("method", Json.str "tools/call"), ("id", Json.num 2),
      ("params", Json.obj [("name", Json.str "get_time")])]).2.1
      [("name", Json.str "get_time")] rfl rfl rfl,
   ((claim_C2 []).2.2 (Json.num 1) "未知方法: frobnicate").2.1⟩

/-- C10: a dict request missing `id`, `method` or `params` still gets a
well-formed envelope: a missing `id` is answered with id `null`, a missing
`method` with the unknown-method error (`未知方法: None`), and for
`tools/call` a missing `params` defaults to the empty mapping, producing the
unknown-tool error for the defaulted `None` name rather than a raised
fault. -/
theorem claim_C10 (kvs : List (String × Json)) :
    (∃ resp, handle_request (Json.obj kvs) = Except.ok resp ∧
       pyIndex resp "id" = Except.ok ((lookupField kvs "id").getD Json.null)) ∧
    (lookupField kvs "method" = none →
       handle_request (Json.obj kvs) =
         Except.ok (errEnvelope ((lookupField kvs "id").getD Json.null) "未知方法: None")) ∧
    (lookupField kvs "method" = some (Json.str "tools/call") →
       lookupField kvs "params" = none →
       handle_request (Json.obj kvs) =
         Except.ok (errEnvelope ((lookupField kvs "id").getD Json.null) "未知工具: None")) := by
  refine ⟨?_, ?_, ?_⟩
  · rw [handle_request_obj]
    cases dispatchMethod ((lookupField kvs "method").getD Json.null)
        ((lookupField kvs "params").getD (Json.obj [])) with
    | ok r => exact ⟨okEnvelope ((lookupField kvs "id").getD Json.null) r, rfl, rfl⟩
    | error e => exact ⟨errEnvelope ((lookupField kvs "id").getD Json.null) e, rfl, rfl⟩
  · intro hm
    rw [handle_request_obj, hm]
    rfl
  · intro hm hp
    rw [handle_request_obj, hm, hp]
    rfl

/-- Concrete instance of `claim_C10`: a bare `tools/call` request with no
`id` and no `params`. -/
theorem claim_C10_witness :
    handle_request (Json.obj [("method", Json.str "tools/call")]) =
      Except.ok (errEnvelope Json.null "未知工具: None") :=
  (claim_C10 [("method", Json.str "tools/call")]).2.2 rfl rfl

/-! ## Claims about the token cache -/

/-- C3: with a truthy cached token and `now` before the stored expiry,
`get_access_token` returns the cached value with no network refresh; a
successful refresh stores expiry `now + reportedLifetime - 60`; a second
call inside the cached window performs no further refresh (so two calls
perform at most one refresh), and a call outside the window performs
exactly one. -/
theorem claim_C3 :
    (∀ st now fr, cacheValid st now = true →
       get_access_token st now fr = (st.access_token.getD Json.null, st, false)) ∧
    (∀ st now kvs tok (e : Int), cacheValid st now = false →
       lookupField kvs "code" = some (Json.num 0) →
       lookupField kvs "app_access_token" = some tok →
       lookupField kvs "expire" = some (Json.num e) →
       get_access_token st now (FetchResult.ok (Json.obj kvs)) =
         (tok, ⟨some tok, some (now + (e - 60))⟩, true)) ∧
    (∀ st n1 n2 f1 f2, cacheValid (get_access_token st n1 f1).2.1 n2 = true →
       (get_access_token (get_access_token st n1 f1).2.1 n2 f2).2.2 = false ∧
       ((get_access_token st n1 f1).2.2.toNat +
        (get_access_token (get_access_token st n1 f1).2.1 n2 f2).2.2.toNat ≤ 1)) ∧
    (∀ st now fr, cacheValid st now = false →
       (get_access_token st now fr).2.2 = true) := by
  have hvalid : ∀ st now fr, cacheValid st now = true →
      get_access_token st now fr = (st.access_token.getD Json.null, st, false) := by
    intro st now fr h
    simp [get_access_token, h]
  have hinvalid : ∀ st now fr, cacheValid st now = false →
      (get_access_token st now fr).2.2 = true := by
    intro st now fr h
    cases fr with
    | exn m => simp [get_access_token, h]
    | ok j =>
      simp only [get_access_token, h, Bool.false_eq_true, if_false]
      cases hj : pyDictGet j "code" Json.null with
      | error e => simp
      | ok code =>
        by_cases hc : Json.beq code (Json.num 0) = true
        · simp only [hc, if_true]
          cases hi : pyIndex j "app_access_token" with
          | error e => simp
          | ok tok =>
            cases he : pyDictGet j "expire" (Json.num 7200) with
            | error e => simp
            | ok expJ =>
              cases hn : pyToInt expJ with
              | error e => simp [hn]
              | ok n => simp [hn]
        · simp [hc]
  refine ⟨hvalid, ?_, ?_, hinvalid⟩
  · intro st now kvs tok e h hcode htok hexp
    simp [get_access_token, h, pyDictGet, pyIndex, pyToInt, hcode, htok, hexp, Json.beq]
  · intro st n1 n2 f1 f2 h
    have h2 := hvalid (get_access_token st n1 f1).2.1 n2 f2 h
    refine ⟨by rw [h2], ?_⟩
    rw [h2]
    cases (get_access_token st n1 f1).2.2 <;> simp

/-- Concrete instances of `claim_C3`: a refresh at time 50 with reported
lifetime 7200 stores expiry 7190, and a second call at time 100 hits the
cache without refreshing. -/
theorem claim_C3_witness :
    get_access_token ⟨none, none⟩ 50
        (FetchResult.ok (Json.obj [("code", Json.num 0),
          ("app_access_token", Json.str "t2"), ("expire", Json.num 7200)])) =
      (Json.str "t2", ⟨some (Json.str "t2"), some 7190⟩, true) ∧
    get_access_token ⟨some (Json.str "t2"), some 7190⟩ 100 (FetchResult.exn "down") =
      (Json.str "t2", ⟨some (Json.str "t2"), some 7190⟩, false) ∧
    (get_access_token ⟨none, none⟩ 8000 (FetchResult.exn "down")).2.2 = true :=
  ⟨by
    have := claim_C3.2.1 ⟨none, none⟩ 50
      [("code", Json.num 0), ("app_access_token", Json.str "t2"), ("expire", Json.num 7200)]
      (Json.str "t2") 7200 rfl rfl rfl rfl
    simpa using this,
   by
    have := claim_C3.1 ⟨some (Json.str "t2"), some 7190⟩ 100 (FetchResult.exn "down")
      (by decide)
    simpa using this,
   claim_C3.2.2.2 ⟨none, none⟩ 8000 (FetchResult.exn "down") rfl⟩

/-- C8: on a refresh failure — a raised exception (network error or
non-success status) or a non-zero response code — `get_access_token` leaves
the cache unchanged and returns the empty string; `send_message` treats a
falsy token as credential-unavailable, answering the error mapping and
posting nothing outbound. -/
theorem claim_C8 :
    (∀ st now m, cacheValid st now = false →
       get_access_token st now (FetchResult.exn m) = (Json.str "", st, true)) ∧
    (∀ st now kvs, cacheValid st now = false →
       Json.beq ((lookupField kvs "code").getD Json.null) (Json.num 0) = false →
       get_access_token st now (FetchResult.ok (Json.obj kvs)) = (Json.str "", st, true)) ∧
    (∀ st now fr sendFr chat_id content msg_type,
       pyTruthy (get_access_token st now fr).1 = false →
       send_message st now fr sendFr chat_id content msg_type =
         (Json.obj [("error", Json.str "无法获取access_token")],
          (get_access_token st now fr).2.1, none)) := by
  refine ⟨?_, ?_, ?_⟩
  · intro st now m h
    simp [get_access_token, h]
  · intro st now kvs h hc
    simp [get_access_token, h, pyDictGet, hc]
  · intro st now fr sendFr chat_id content msg_type htok
    simp [send_message, htok]

/-- Concrete instances of `claim_C8`: a network failure and a rejected
code both leave an empty cache empty and return `""`, and `send_message`
then answers the error mapping without sending. -/
theorem claim_C8_witness :
    get_access_token ⟨none, none⟩ 50 (FetchResult.exn "timeout") =
      (Json.str "", ⟨none, none⟩, true) ∧
    get_access_token ⟨none, none⟩ 50
        (FetchResult.ok (Json.obj [("code", Json.num 99), ("msg", Json.str "invalid")])) =
      (Json.str "", ⟨none, none⟩, true) ∧
    send_message ⟨none, none⟩ 50 (FetchResult.exn "timeout") (FetchResult.exn "x")
        "oc_1" (Json.str "hello") "text" =
      (Json.obj [("error", Json.str "无法获取access_token")], ⟨none, none⟩, none) :=
  ⟨claim_C8.1 ⟨none, none⟩ 50 "timeout" rfl,
   claim_C8.2.1 ⟨none, none⟩ 50 [("code", Json.num 99), ("msg", Json.str "invalid")] rfl rfl,
   claim_C8.2.2 ⟨none, none⟩ 50 (FetchResult.exn "timeout") (FetchResult.exn "x")
     "oc_1" (Json.str "hello") "text" rfl⟩

/-! ## Claims about `call_mcp_tool` -/

/-- A content item with the given type tag (`text` or not) and text. -/
def mkItem (bs : Bool × String) : Json :=
  Json.obj [("type", Json.str (if bs.1 then "text" else "image")),
            ("text", Json.str bs.2)]

/-- A `tools/call` response whose `result.content` holds the given items. -/
def mkResponseOf (items : List (Bool × String)) : Json :=
  Json.obj [("result", Json.obj [("content", Json.arr (items.map mkItem))])]

/-- The texts of the items whose type is `"text"`, in order. -/
def textsOf (items : List (Bool × String)) : List String :=
  (items.filter (fun bs => bs.1)).map (fun bs => bs.2)

theorem extractTexts_mkItem (items : List (Bool × String)) :
    extractTexts (items.map mkItem) = Except.ok ((textsOf items).map Json.str) := by
  induction items with
  | nil => rfl
  | cons hd tl ih =>
    obtain ⟨b, s⟩ := hd
    cases b <;>
      simp [extractTexts, mkItem, pyDictGet, lookupField, Json.beq, textsOf,
        exceptOkBind, exceptPure, ih, List.filter]

theorem pyJoin_strs (sep : String) (l : List String) :
    pyJoin sep (l.map Json.str) = Except.ok l := by
  induction l with
  | nil => rfl
  | cons hd tl ih => simp [pyJoin, ih, exceptOkBind, exceptPure]

theorem call_mcp_tool_core_mk (sep noResult : String) (items : List (Bool × String)) :
    call_mcp_tool_core sep noResult (mkResponseOf items) =
      Except.ok (String.intercalate sep (textsOf items)) := by
  simp [call_mcp_tool_core, mkResponseOf, pyContains, pyIndex, pyIter, lookupField,
    exceptOkBind, exceptPure, extractTexts_mkItem, pyJoin_strs]

/-- C9 fails as stated: on a two-text-item content list the
`feishu_bot_config.py` revision inserts a `"\n"` separator while the
`http_mcp_server.py` revision concatenates with none, so the two revisions
disagree and the config revision is not a plain concatenation. -/
theorem claim_C9_counterexample :
    call_mcp_tool_cfg (FetchResult.ok (mkResponseOf [(true, "a"), (true, "b")])) = "a\nb" ∧
    call_mcp_tool_http (FetchResult.ok (mkResponseOf [(true, "a"), (true, "b")])) = "ab" ∧
    ("a\nb" : String) ≠ "ab" := ⟨rfl, rfl, by decide⟩

/-- C9 amended: both revisions return the `"text"`-typed items' texts in
order, the http revision joined with no separator and the config revision
joined with `"\n"`; the two replies coincide when at most one text item is
present. -/
theorem claim_C9_amended (items : List (Bool × String)) :
    call_mcp_tool_http (FetchResult.ok (mkResponseOf items)) =
      String.intercalate "" (textsOf items) ∧
    call_mcp_tool_cfg (FetchResult.ok (mkResponseOf items)) =
      String.intercalate "\n" (textsOf items) ∧
    ((textsOf items).length ≤ 1 →
      call_mcp_tool_cfg (FetchResult.ok (mkResponseOf items)) =
        call_mcp_tool_http (FetchResult.ok (mkResponseOf items))) := by
  have hh : call_mcp_tool_http (FetchResult.ok (mkResponseOf items)) =
      String.intercalate "" (textsOf items) := by
    simp [call_mcp_tool_http, call_mcp_tool_core_mk]
  have hc : call_mcp_tool_cfg (FetchResult.ok (mkResponseOf items)) =
      String.intercalate "\n" (textsOf items) := by
    simp [call_mcp_tool_cfg, call_mcp_tool_core_mk]
  refine ⟨hh, hc, fun hlen => ?_⟩
  rw [hh, hc]
  match h : textsOf items with
  | [] => rfl
  | [t] => rfl
  | t1 :: t2 :: ts => rw [h] at hlen; simp at hlen

/-- Concrete instance of `claim_C9_amended`: one text item and one non-text
item give the single text on both revisions. -/
theorem claim_C9_amended_witness :
    call_mcp_tool_http (FetchResult.ok (mkResponseOf [(true, "hi"), (false, "x")])) = "hi" ∧
    call_mcp_tool_cfg (FetchResult.ok (mkResponseOf [(true, "hi"), (false, "x")])) =
      call_mcp_tool_http (FetchResult.ok (mkResponseOf [(true, "hi"), (false, "x")])) :=
  ⟨(claim_C9_amended [(true, "hi"), (false, "x")]).1,
   (claim_C9_amended [(true, "hi"), (false, "x")]).2.2 (by decide)⟩

/-! ## Claim about the two-tool registry -/

/-- C4 (registry modelled from the spec, see `specToolRegistry`): the
registry holds exactly `say_hi` and `get_time`; `tools/list` returns the
full registry contents (name, description, inputSchema); `say_hi` returns
the literal text "hi" for any arguments; `get_time` returns the clock
reading formatted `YYYY-MM-DD HH:MM:SS` (19 characters) for any
arguments. -/
theorem claim_C4 :
    specToolRegistry.map (fun t => t.name) = ["say_hi", "get_time"] ∧
    spec_tools_list =
      Json.obj [("tools", Json.arr [toolSpecJson sayHiTool, toolSpecJson getTimeTool])] ∧
    toolSpecJson sayHiTool = Json.obj [("name", Json.str "say_hi"),
      ("description", Json.str sayHiTool.description), ("inputSchema", emptySchema)] ∧
    toolSpecJson getTimeTool = Json.obj [("name", Json.str "get_time"),
      ("description", Json.str getTimeTool.description), ("inputSchema", emptySchema)] ∧
    (∀ args now, spec_tools_call "say_hi" args now = Except.ok (textContent "hi")) ∧
    (∀ args now, spec_tools_call "get_time" args now =
       Except.ok (textContent (formatTime now))) ∧
    (∀ t : LocalTime, (formatTime t).length = 19) :=
  ⟨rfl, rfl, rfl, rfl, fun _ _ => rfl, fun _ _ => rfl, fun _ => rfl⟩

/-! ## Claims about `handle_message` -/

/-- When the inbound content is a string that `json.loads` rejects, the
router wraps it as `{text: rawContent}` and routes on the stripped raw
text. -/
theorem handle_message_core_str (w : MsgWorld) (s : String) (hp : w.parse s = none) :
    handle_message_core w (mkEvent (Json.str s)) = routeText w (pyStrip s) := by
  simp [handle_message_core, mkEvent, pyDictGet, lookupField, hp, liftE, pyAsStr, exceptOkBind]

/-- When the inbound content is a string that `json.loads` parses into a
mapping, the router behaves exactly as if that mapping had arrived
directly. -/
theorem handle_message_core_parsed (w : MsgWorld) (s : String)
    (kvs : List (String × Json)) (hp : w.parse s = some (Json.obj kvs)) :
    handle_message_core w (mkEvent (Json.str s)) =
      handle_message_core w (mkEvent (Json.obj kvs)) := by
  simp [handle_message_core, mkEvent, pyDictGet, lookupField, hp, liftE, exceptOkBind]

/-- C6: after normalization (string content parsed with `json.loads`, wrapped
as `{text: raw}` on parse failure, the stripped `text` driving routing), the
literal command aliases are resolved by ordered first match — `/hi` or
case-insensitive `hi` invokes `say_hi`, `/time` or `时间` invokes
`get_time`, `/help` or `帮助` returns the static help text with no tool
invocation — all before any intent resolution (the returned flag `false`
records that the resolver was never consulted). -/
theorem claim_C6 (w : MsgWorld) (s : String) :
    (w.parse s = none →
       ((pyStrip s = "/hi" ∨ pyLower (pyStrip s) = "hi") →
          handle_message w (mkEvent (Json.str s)) =
            (w.toolReply (Json.str "say_hi") Json.null,
             [(Json.str "say_hi", Json.null)], false)) ∧
       ((pyStrip s = "/time" ∨ pyStrip s = "时间") →
          handle_message w (mkEvent (Json.str s)) =
            (w.toolReply (Json.str "get_time") Json.null,
             [(Json.str "get_time", Json.null)], false)) ∧
       ((pyStrip s = "/help" ∨ pyStrip s = "帮助") →
          handle_message w (mkEvent (Json.str s)) = (helpText, [], false))) ∧
    (∀ kvs, w.parse s = some (Json.obj kvs) →
       handle_message w (mkEvent (Json.str s)) =
         handle_message w (mkEvent (Json.obj kvs))) := by
  constructor
  · intro hp
    have hcore := handle_message_core_str w s hp
    refine ⟨?_, ?_, ?_⟩
    · rintro (h | h) <;>
        simp [handle_message, hcore, routeText, h, exceptPure]
    · rintro (h | h) <;>
        simp [handle_message, hcore, routeText, h, pyLower, exceptPure]
    · rintro (h | h) <;>
        simp [handle_message, hcore, routeText, h, pyLower, exceptPure]
  · intro kvs hp
    have hcore := handle_message_core_parsed w s kvs hp
    simp [handle_message, hcore]

/-- Concrete instances of `claim_C6`: `" HI "` (case-insensitive greeting
with surrounding whitespace), `"时间"` and `"/help"`. -/
theorem claim_C6_witness :
    handle_message ⟨fun _ => none, fun _ _ => "hi", fun _ => none⟩
        (mkEvent (Json.str " HI ")) = ("hi", [(Json.str "say_hi", Json.null)], false) ∧
    handle_message ⟨fun _ => none, fun _ _ => "now", fun _ => none⟩
        (mkEvent (Json.str "时间")) = ("now", [(Json.str "get_time", Json.null)], false) ∧
    handle_message ⟨fun _ => none, fun _ _ => "x", fun _ => none⟩
        (mkEvent (Json.str "/help")) = (helpText, [], false) :=
  ⟨((claim_C6 ⟨fun _ => none, fun _ _ => "hi", fun _ => none⟩ " HI ").1 rfl).1
      (Or.inr (by decide)),
   ((claim_C6 ⟨fun _ => none, fun _ _ => "now", fun _ => none⟩ "时间").1 rfl).2.1
      (Or.inr (by decide)),
   ((claim_C6 ⟨fun _ => none, fun _ _ => "x", fun _ => none⟩ "/help").1 rfl).2.2
      (Or.inl (by decide))⟩

/-- C7: `handle_message` is total — every run either propagates the normal
result of its body or, when the body raises, returns exactly the
`"处理消息时出错: <message>"` reply; no fault escapes to the caller. -/
theorem claim_C7 (w : MsgWorld) (event : Json) :
    ∃ reply calls resolverCalled,
      handle_message w event = (reply, calls, resolverCalled) ∧
      ((∃ e, handle_message_core w event = Except.error (e, resolverCalled) ∧
          reply = "处理消息时出错: " ++ e ∧ calls = []) ∨
       handle_message_core w event = Except.ok (reply, calls, resolverCalled)) := by
  cases hc : handle_message_core w event with
  | ok r =>
    exact ⟨r.1, r.2.1, r.2.2, by simp [handle_message, hc], Or.inr rfl⟩
  | error er =>
    exact ⟨"处理消息时出错: " ++ er.1, [], er.2, by simp [handle_message, hc],
      Or.inl ⟨er.1, rfl, rfl, rfl⟩⟩

/-- The command-alias conditions of `routeText`, bundled. -/
def isCommandText (text : String) : Bool :=
  (text == "/hi" || pyLower text == "hi") || (text == "/time" || text == "时间") ||
  (text == "/help" || text == "帮助")

/-- A resolver world in which the completion returns a `tools/call` intent
whose `params` mapping lacks `name`. -/
def missingNameWorld : MsgWorld :=
  ⟨fun _ => none, fun _ _ => "hi",
   fun _ => some (Json.obj [("method", Json.str "tools/call"), ("params", Json.obj [])])⟩

/-- C5 fails as stated: `handle_message` does not validate that
`params.name` is present before dispatching — on an intent with `method =
"tools/call"` and empty `params` the subscript raises, and the failure does
not collapse to a fallback/no-intent outcome but surfaces as the top-level
processing-error reply. -/
theorem claim_C5_counterexample :
    handle_message missingNameWorld (mkEvent (Json.str "早上好")) =
      ("处理消息时出错: KeyError: name", [], true) ∧
    ("处理消息时出错: KeyError: name" : String) ≠ fallbackReply "早上好" :=
  ⟨rfl, by decide⟩

/-- C5 amended: the resolver treats completion failures and unparseable
completion text as "no intent" (`None`) without raising, and
`handle_message` checks `method == "tools/call"` (falsy or non-`tools/call`
intents fall through to the echo reply); but a `tools/call` intent whose
`params` lacks `name` is not validated — its lookup raises, and the
top-level handler answers the processing-error reply instead of the
fallback. -/
theorem claim_C5_amended (w : MsgWorld) (s : String) :
    (∀ (parse : String → Option Json) m,
       get_mcp_json_from_gemini (Except.error m) parse = none) ∧
    (∀ (parse : String → Option Json) reply, parse (pyStrip reply) = none →
       get_mcp_json_from_gemini (Except.ok reply) parse = none) ∧
    (w.parse s = none → isCommandText (pyStrip s) = false →
       (w.resolver (pyStrip s) = none →
          handle_message w (mkEvent (Json.str s)) = (fallbackReply (pyStrip s), [], true)) ∧
       (∀ mkvs, w.resolver (pyStrip s) = some (Json.obj mkvs) →
          Json.beq ((lookupField mkvs "method").getD Json.null) (Json.str "tools/call") = false →
          handle_message w (mkEvent (Json.str s)) = (fallbackReply (pyStrip s), [], true)) ∧
       (∀ mkvs pkvs, w.resolver (pyStrip s) = some (Json.obj mkvs) →
          lookupField mkvs "method" = some (Json.str "tools/call") →
          lookupField mkvs "params" = some (Json.obj pkvs) →
          lookupField pkvs "name" = none →
          handle_message w (mkEvent (Json.str s)) =
            ("处理消息时出错: KeyError: name", [], true))) := by
  refine ⟨fun parse m => rfl, fun parse reply h => by simp [get_mcp_json_from_gemini, h], ?_⟩
  intro hp hcmd
  have hcore := handle_message_core_str w s hp
  simp only [isCommandText, Bool.or_eq_false_iff] at hcmd
  obtain ⟨⟨⟨ha, hb⟩, hc, hd⟩, he, hf⟩ := hcmd
  refine ⟨?_, ?_, ?_⟩
  · intro hres
    simp [handle_message, hcore, routeText, ha, hb, hc, hd, he, hf, hres, exceptPure]
  · intro mkvs hres hm
    by_cases hemp : mkvs = []
    · subst hemp
      simp [handle_message, hcore, routeText, ha, hb, hc, hd, he, hf, hres,
        pyTruthy, exceptPure]
    · have htr : pyTruthy (Json.obj mkvs) = true := by
        cases mkvs with
        | nil => exact absurd rfl hemp
        | cons x xs => rfl
      simp [handle_message, hcore, routeText, ha, hb, hc, hd, he, hf, hres, htr,
        pyDictGet, liftE, hm, exceptOkBind, exceptPure]
  · intro mkvs pkvs hres hm hpar hname
    have htr : pyTruthy (Json.obj mkvs) = true := by
      cases mkvs with
      | nil => simp [lookupField] at hm
      | cons x xs => rfl
    simp [handle_message, hcore, routeText, ha, hb, hc, hd, he, hf, hres, htr,
      pyDictGet, pyIndex, liftE, hm, hpar, hname, Json.beq, exceptOkBind,
      exceptErrorBind, exceptPure]

/-- Concrete instances of `claim_C5_amended`: a failed completion resolves
to no intent; a non-command text with no intent gets the fallback echo; the
missing-`name` intent gets the processing-error reply. -/
theorem claim_C5_amended_witness :
    get_mcp_json_from_gemini (Except.error "rate limited") (fun _ => some Json.null) = none ∧
    handle_message ⟨fun _ => none, fun _ _ => "hi", fun _ => none⟩
        (mkEvent (Json.str "随便说说")) = (fallbackReply "随便说说", [], true) ∧
    handle_message missingNameWorld (mkEvent (Json.str "早上好")) =
      ("处理消息时出错: KeyError: name", [], true) :=
  ⟨(claim_C5_amended ⟨fun _ => none, fun _ _ => "hi", fun _ => none⟩ "x").1
      (fun _ => some Json.null) "rate limited",
   ((claim_C5_amended ⟨fun _ => none, fun _ _ => "hi", fun _ => none⟩ "随便说说").2.2
      rfl (by decide)).1 rfl,
   ((claim_C5_amended missingNameWorld "早上好").2.2 rfl (by decide)).2.2
      [("method", Json.str "tools/call"), ("params", Json.obj [])] [] rfl rfl rfl rfl⟩
